import Mathlib

/-!
Shallow embedding of the water-dispenser pump controller
(`pump_control_class.py`) and of the operation threads and scheduling
logic of its GUI (`gui.py`).

Modelling conventions:
* Device I/O is observed as a list of `DeviceWrite` events (the register,
  register-pair and coil writes issued through the shared pymodbus link).
  The model follows the success path of the link: exceptions raised by the
  link are external nondeterminism that the Python code catches locally.
* Real time is discretised into ticks of the phase loops' 0.1 s sleep:
  each loop iteration emits one progress sample and advances time by one
  tick.  Durations are measured in ticks.
* Cooperative cancellation (`stop_operation` clearing `is_running`) is
  modelled by an optional cancel tick `c`: every check of the flag at a
  tick `t` observes `true` iff `t < c`.
-/

namespace WaterDispenser

/-- A write issued through the Modbus device link, addressed by unit id.
Mirrors the `write_register` / `write_registers` / `write_coil` calls in
`pump_control_class.py`. -/
inductive DeviceWrite where
  | writeRegister (addr : Nat) (value : Int) (unit : Nat)
  | writeRegisters (addr : Nat) (values : List Int) (unit : Nat)
  | writeCoil (addr : Nat) (value : Bool) (unit : Nat)
  deriving Repr, DecidableEq

/-- Modbus register addresses (class constants of `PumpController`). -/
def COIL_START_STOP : Nat := 0

def REG_TARGET_RPM : Nat := 2

def REG_MAX_RPM : Nat := 4

def REG_OPERATION_MODE : Nat := 9

def REG_DIRECTION : Nat := 12

def REG_COMMUNICATION : Nat := 14

def OPERATION_MODE_CONTINUOUS : Int := 0

def DIRECTION_CW : Int := 1

def DIRECTION_CCW : Int := 0

def COMM_RS485 : Int := 1

/-- Driver state of the hardware `PumpController`.  The pymodbus client
object is abstracted to the flag `hasClient` (Python: `self.client` is
not `None`). -/
structure PumpControllerState where
  sn : String
  baudrate : Nat
  unit_id : Nat
  max_rpm : Int
  connected : Bool
  hasClient : Bool
  deriving Repr, DecidableEq

namespace PumpController

/-- `PumpController.__init__`. -/
def init (sn : String) (baudrate : Nat) (unit_id : Nat) (max_rpm : Int) :
    PumpControllerState :=
  { sn := sn
    baudrate := baudrate
    unit_id := unit_id
    max_rpm := max_rpm
    connected := false
    hasClient := false }

/-- The three writes of `PumpController._initialize_pump`: communication
mode RS485, continuous operation mode, and the max-RPM ceiling (register
pair, value `max_rpm * 100`), all on the driver's own unit id. -/
def initWrites (s : PumpControllerState) : List DeviceWrite :=
  [ .writeRegister REG_COMMUNICATION COMM_RS485 s.unit_id,
    .writeRegister REG_OPERATION_MODE OPERATION_MODE_CONTINUOUS s.unit_id,
    .writeRegisters REG_MAX_RPM [0, s.max_rpm * 100] s.unit_id ]

/-- `PumpController.set_client`: store the (already open) shared link,
mark connected, run `_initialize_pump`. -/
def set_client (s : PumpControllerState) : PumpControllerState × List DeviceWrite :=
  let s1 := { s with hasClient := true, connected := true }
  (s1, initWrites s1)

/-- `PumpController.run(rpm, duration, reverse)`.  Returns the boolean
result and the device writes issued (direction, target RPM pair at
`rpm * 100`, start coil; plus the stop coil when a blocking `duration`
is given).  Not-connected and negative-RPM requests return `False`
before any write; RPM above `max_rpm` is clamped to `max_rpm` first. -/
def run (s : PumpControllerState) (rpm : Int) (duration : Option Nat)
    (reverse : Bool) : Bool × List DeviceWrite :=
  if s.connected then
    let rpm := if rpm > s.max_rpm then s.max_rpm else rpm
    if rpm < 0 then (false, [])
    else
      let direction := if reverse then DIRECTION_CCW else DIRECTION_CW
      let startWrites : List DeviceWrite :=
        [ .writeRegister REG_DIRECTION direction s.unit_id,
          .writeRegisters REG_TARGET_RPM [0, rpm * 100] s.unit_id,
          .writeCoil COIL_START_STOP true s.unit_id ]
      match duration with
      | some _ => (true, startWrites ++ [.writeCoil COIL_START_STOP false s.unit_id])
      | none => (true, startWrites)
  else (false, [])

/-- `PumpController.stop`: de-assert the run coil when connected with a
client; otherwise do nothing.  Never mutates driver fields and never
raises (the Python body catches all exceptions). -/
def stop (s : PumpControllerState) : PumpControllerState × List DeviceWrite :=
  if s.connected && s.hasClient then
    (s, [.writeCoil COIL_START_STOP false s.unit_id])
  else (s, [])

/-- `PumpController.disconnect`: stop, close the link, clear connected. -/
def disconnect (s : PumpControllerState) : PumpControllerState × List DeviceWrite :=
  if s.hasClient then
    let r := stop s
    ({ r.1 with connected := false }, r.2)
  else (s, [])

end PumpController

/-- State of `SimulatedPumpController`. -/
structure SimulatedPumpState where
  sn : String
  baudrate : Nat
  unit_id : Nat
  max_rpm : Int
  connected : Bool
  current_rpm : Int
  is_running : Bool
  direction : String
  start_time : Option Nat
  hasClient : Bool
  deriving Repr, DecidableEq

namespace SimulatedPumpController

/-- `SimulatedPumpController.__init__`. -/
def init (sn : String) (baudrate : Nat) (unit_id : Nat) (max_rpm : Int) :
    SimulatedPumpState :=
  { sn := sn
    baudrate := baudrate
    unit_id := unit_id
    max_rpm := max_rpm
    connected := false
    current_rpm := 0
    is_running := false
    direction := "CW"
    start_time := none
    hasClient := false }

/-- `SimulatedPumpController.connect`: always succeeds, sets the flag. -/
def connect (s : SimulatedPumpState) : Bool × SimulatedPumpState :=
  (true, { s with connected := true })

/-- `SimulatedPumpController.set_client`: stores the link and marks
connected.  The Python body performs no device-link writes at all (the
empty write list), in contrast to the hardware variant. -/
def set_client (s : SimulatedPumpState) : SimulatedPumpState × List DeviceWrite :=
  ({ s with hasClient := true, connected := true }, [])

/-- `SimulatedPumpController.run(rpm, duration, reverse)` at time `now`:
clamp above `max_rpm`, reject negative RPM, otherwise record the new
speed/direction/running state; with a blocking `duration` the simulated
pump ends stopped again. -/
def run (s : SimulatedPumpState) (rpm : Int) (duration : Option Nat)
    (reverse : Bool) (now : Nat) : Bool × SimulatedPumpState :=
  if s.connected then
    let rpm := if rpm > s.max_rpm then s.max_rpm else rpm
    if rpm < 0 then (false, s)
    else
      let s1 :=
        { s with
          current_rpm := rpm
          is_running := true
          direction := if reverse then "CCW" else "CW"
          start_time := some now }
      match duration with
      | some _ => (true, { s1 with current_rpm := 0, is_running := false })
      | none => (true, s1)
  else (false, s)

/-- `SimulatedPumpController.stop`: when connected, zero the speed and
clear the running flag; when not connected, only print (no state
change). -/
def stop (s : SimulatedPumpState) : SimulatedPumpState :=
  if s.connected then { s with current_rpm := 0, is_running := false }
  else s

/-- Status record returned by `SimulatedPumpController.get_status`. -/
structure SimStatus where
  connected : Bool
  running : Bool
  rpm : Int
  direction : String
  max_rpm : Int
  runtime_seconds : Nat
  sn : String
  unit_id : Nat
  deriving Repr, DecidableEq

/-- `SimulatedPumpController.get_status` at time `now` (pure read). -/
def get_status (s : SimulatedPumpState) (now : Nat) : SimStatus :=
  { connected := s.connected
    running := s.is_running
    rpm := s.current_rpm
    direction := s.direction
    max_rpm := s.max_rpm
    runtime_seconds :=
      match s.start_time with
      | some st => if s.is_running then now - st else 0
      | none => 0
    sn := s.sn
    unit_id := s.unit_id }

/-- `SimulatedPumpController.disconnect`: stop if running, then clear
connected/speed/running/start_time. -/
def disconnect (s : SimulatedPumpState) : SimulatedPumpState :=
  let s1 := if s.is_running then stop s else s
  { s1 with
    connected := false
    current_rpm := 0
    is_running := false
    start_time := none }

end SimulatedPumpController

/-- State invariant of the simulated pump driver: a disconnected pump is
not running at speed 0, and (for a driver built with a nonnegative RPM
ceiling) the current speed stays within `[0, max_rpm]`. -/
def SimInv (s : SimulatedPumpState) : Prop :=
  (s.connected = false → s.is_running = false ∧ s.current_rpm = 0) ∧
  (0 ≤ s.max_rpm → 0 ≤ s.current_rpm ∧ s.current_rpm ≤ s.max_rpm)

/-- The request handed to a freshly created `PumpOperationThread`
(operation name and optional custom duration, `gui.py`). -/
structure ThreadRequest where
  operation_name : String
  custom_duration : Option Nat
  deriving Repr, DecidableEq

/-- The mutable GUI/controller state of `PumpControlGUI` that the
operation and scheduling logic touches.  Widget fields are modelled by
their data (label texts, enabled flags, progress value).  There is no
queue of pending operations anywhere in the source, hence none here. -/
structure GuiState where
  current_operation : Option String
  operation_thread : Option ThreadRequest
  operation_label : String
  status_label : String
  progress_value : Nat
  countdown_label : String
  fill_button_enabled : Bool
  dispense_button_enabled : Bool
  retract_button_enabled : Bool
  stop_button_enabled : Bool
  start_scheduled_button_enabled : Bool
  stop_scheduled_button_enabled : Bool
  scheduled_dispense_active : Bool
  next_dispense_time : Option Nat
  dispense_interval_minutes : Nat
  dispense_duration_seconds : Nat
  deriving Repr, DecidableEq

namespace PumpControlGUI

/-- `PumpControlGUI.start_operation(operation_name, custom_duration)`:
if an operation is already in flight, set the status label and return
without creating a thread (`none`); otherwise record the new run, reset
progress, flip the button enables, and create the operation thread
(returned as `some` request). -/
def start_operation (g : GuiState) (operation_name : String)
    (custom_duration : Option Nat) : GuiState × Option ThreadRequest :=
  if g.current_operation.isSome then
    ({ g with status_label := "Another operation is already running!" }, none)
  else
    let req : ThreadRequest :=
      { operation_name := operation_name, custom_duration := custom_duration }
    ({ g with
        current_operation := some operation_name
        operation_label := "Running: " ++ operation_name
        status_label := "Operation in progress..."
        progress_value := 0
        countdown_label := ""
        fill_button_enabled := false
        dispense_button_enabled := false
        retract_button_enabled := false
        stop_button_enabled := true
        start_scheduled_button_enabled := false
        stop_scheduled_button_enabled := false
        operation_thread := some req }, some req)

/-- `PumpControlGUI.execute_scheduled_dispense` at time `now`: when the
schedule is active, request a Dispense run with the schedule's
`dispense_duration_seconds` as custom duration, then unconditionally
recompute `next_dispense_time = now + interval` (the source line runs
whether or not `start_operation` accepted the request). -/
def execute_scheduled_dispense (g : GuiState) (now : Nat) :
    GuiState × Option ThreadRequest :=
  if g.scheduled_dispense_active then
    let r := start_operation g "Dispense" (some g.dispense_duration_seconds)
    ({ r.1 with
        next_dispense_time := some (now + r.1.dispense_interval_minutes * 60) },
      r.2)
  else (g, none)

end PumpControlGUI

/-- The two pumps bound to a `PumpOperationThread`. -/
inductive PumpId where
  | dispenser
  | retractor
  deriving Repr, DecidableEq

/-- Events observed from a `PumpOperationThread` run: pump start/stop
calls, `progress_update` signal emissions, and the terminal
`operation_completed` signal. -/
inductive ThreadEvent where
  | runPump (pump : PumpId) (rpm : Int) (reverse : Bool)
  | progress_update (elapsed total : Nat)
  | stopPump (pump : PumpId)
  | operation_completed (operation_name : String) (success : Bool)
  deriving Repr, DecidableEq

/-- Value of the cooperative `is_running` flag at tick `t`, for a run
cancelled at tick `cancel` (`none` = never cancelled). -/
def flagAt (cancel : Option Nat) (t : Nat) : Bool :=
  match cancel with
  | none => true
  | some c => t < c

/-- One phase loop `while self.is_running and time.time() < end_time`,
with `fuel = end_time - t` remaining ticks: each iteration emits one
progress sample `(t, total)` and advances one 0.1 s tick.  Returns the
emitted events and the exit tick. -/
def phaseTicks (cancel : Option Nat) (total : Nat) :
    Nat → Nat → List ThreadEvent × Nat
  | 0, t => ([], t)
  | fuel + 1, t =>
    if flagAt cancel t then
      (ThreadEvent.progress_update t total ::
          (phaseTicks cancel total fuel (t + 1)).1,
        (phaseTicks cancel total fuel (t + 1)).2)
    else ([], t)

/-- Phase loop from tick `t` until `endTime` (absolute), under
cancellation `cancel` and reported total `total`. -/
def phaseLoop (cancel : Option Nat) (total endTime t : Nat) :
    List ThreadEvent × Nat :=
  phaseTicks cancel total (endTime - t) t

/-- `PumpOperationThread.run_fill`: start retractor (reverse) and
dispenser (forward), run the dispense phase for `duration` ticks with
progress, then — if the flag is still set — stop the dispenser, run the
settle phase to `duration + sleep_time`, stop the retractor and report
success; otherwise stop both pumps and report failure. -/
def run_fill (operation_name : String) (retractor_rpm dispenser_rpm : Int)
    (duration sleep_time : Nat) (cancel : Option Nat) : List ThreadEvent :=
  let total_time := duration + sleep_time
  let p1 := phaseLoop cancel total_time duration 0
  [ThreadEvent.runPump .retractor retractor_rpm true,
   ThreadEvent.runPump .dispenser dispenser_rpm false] ++ p1.1 ++
    (if flagAt cancel p1.2 then
      let p2 := phaseLoop cancel total_time (duration + sleep_time) p1.2
      [ThreadEvent.stopPump .dispenser] ++ p2.1 ++
        [ThreadEvent.stopPump .retractor,
         ThreadEvent.operation_completed operation_name true]
    else
      [ThreadEvent.stopPump .dispenser, ThreadEvent.stopPump .retractor,
       ThreadEvent.operation_completed operation_name false])

/-- Duration used by `PumpOperationThread.run_dispense`: the custom
duration when provided, else the configured `dispense_duration`. -/
def resolveDispenseDuration (custom_duration : Option Nat)
    (dispense_duration : Nat) : Nat :=
  custom_duration.getD dispense_duration

/-- `PumpOperationThread.run_dispense`: identical phase structure to
`run_fill`, with the dispense-phase duration resolved from the optional
custom duration. -/
def run_dispense (operation_name : String) (retractor_rpm dispenser_rpm : Int)
    (custom_duration : Option Nat) (dispense_duration sleep_time : Nat)
    (cancel : Option Nat) : List ThreadEvent :=
  let duration := resolveDispenseDuration custom_duration dispense_duration
  let total_time := duration + sleep_time
  let p1 := phaseLoop cancel total_time duration 0
  [ThreadEvent.runPump .retractor retractor_rpm true,
   ThreadEvent.runPump .dispenser dispenser_rpm false] ++ p1.1 ++
    (if flagAt cancel p1.2 then
      let p2 := phaseLoop cancel total_time (duration + sleep_time) p1.2
      [ThreadEvent.stopPump .dispenser] ++ p2.1 ++
        [ThreadEvent.stopPump .retractor,
         ThreadEvent.operation_completed operation_name true]
    else
      [ThreadEvent.stopPump .dispenser, ThreadEvent.stopPump .retractor,
       ThreadEvent.operation_completed operation_name false])

/-- `PumpOperationThread.run_drain`: both pumps reverse, one phase of
`duration` ticks, then stop both; success iff the flag survived. -/
def run_drain (operation_name : String) (retractor_rpm dispenser_rpm : Int)
    (duration : Nat) (cancel : Option Nat) : List ThreadEvent :=
  let total_time := duration
  let p := phaseLoop cancel total_time duration 0
  [ThreadEvent.runPump .retractor retractor_rpm true,
   ThreadEvent.runPump .dispenser dispenser_rpm true] ++ p.1 ++
    (if flagAt cancel p.2 then
      [ThreadEvent.stopPump .retractor, ThreadEvent.stopPump .dispenser,
       ThreadEvent.operation_completed operation_name true]
    else
      [ThreadEvent.stopPump .retractor, ThreadEvent.stopPump .dispenser,
       ThreadEvent.operation_completed operation_name false])

/-- `PumpOperationThread.stop_operation`: besides clearing `is_running`
(the cancel tick of the model), it immediately stops both pumps from the
controlling thread. -/
def stop_operation_cmds : List ThreadEvent :=
  [ThreadEvent.stopPump .dispenser, ThreadEvent.stopPump .retractor]

/-- Elapsed values of the progress events of a trace, in emission
order. -/
def progressEvents (evs : List ThreadEvent) : List Nat :=
  evs.filterMap fun e =>
    match e with
    | .progress_update elapsed _ => some elapsed
    | _ => none

/-- Terminal completion events of a trace. -/
def completedEvents (evs : List ThreadEvent) : List (String × Bool) :=
  evs.filterMap fun e =>
    match e with
    | .operation_completed n b => some (n, b)
    | _ => none

/-- Pumps receiving a stop command in a trace. -/
def stopCmds (evs : List ThreadEvent) : List PumpId :=
  evs.filterMap fun e =>
    match e with
    | .stopPump p => some p
    | _ => none

/-- Values written to the target-RPM register pair in a write list. -/
def targetRpmWrites (ws : List DeviceWrite) : List (List Int) :=
  ws.filterMap fun w =>
    match w with
    | .writeRegisters addr values _ =>
      if addr = REG_TARGET_RPM then some values else none
    | _ => none

/-- A freshly constructed hardware driver (the dispenser of `gui.py`
main, before `connect`). -/
def hwSample : PumpControllerState := PumpController.init "AB12CD" 9600 1 600

/-- A freshly constructed simulated driver. -/
def simSample : SimulatedPumpState := SimulatedPumpController.init "AB12CD" 9600 2 600

/-- A connected simulated driver. -/
def simConnected : SimulatedPumpState := { simSample with connected := true }

/-- An idle GUI state with an active schedule (interval 30 min,
per-fire duration 5 s), as after `start_scheduled_dispensing`. -/
def gScheduled : GuiState :=
  { current_operation := none
    operation_thread := none
    operation_label := "Ready"
    status_label := ""
    progress_value := 0
    countdown_label := ""
    fill_button_enabled := false
    dispense_button_enabled := true
    retract_button_enabled := false
    stop_button_enabled := false
    start_scheduled_button_enabled := false
    stop_scheduled_button_enabled := true
    scheduled_dispense_active := true
    next_dispense_time := some 1800
    dispense_interval_minutes := 30
    dispense_duration_seconds := 5 }

/-- A GUI state with a run already in flight. -/
def gBusy : GuiState :=
  { gScheduled with
    current_operation := some "Dispense"
    operation_thread :=
      some { operation_name := "Dispense", custom_duration := some 5 }
    operation_label := "Running: Dispense"
    status_label := "Operation in progress..."
    stop_button_enabled := true }

/-! ## Helper lemmas -/

theorem filterMap_progress_map {α : Type} (f : ThreadEvent → Option α)
    (hf : ∀ e t, f (.progress_update e t) = none) (l : List Nat) (total : Nat) :
    (l.map fun k => ThreadEvent.progress_update k total).filterMap f = [] := by
  induction l with
  | nil => rfl
  | cons a l ih => simp [List.filterMap_cons, hf, ih]

theorem completedEvents_progress_map (l : List Nat) (total : Nat) :
    completedEvents (l.map fun k => ThreadEvent.progress_update k total) = [] :=
  filterMap_progress_map _ (fun _ _ => rfl) l total

theorem stopCmds_progress_map (l : List Nat) (total : Nat) :
    stopCmds (l.map fun k => ThreadEvent.progress_update k total) = [] :=
  filterMap_progress_map _ (fun _ _ => rfl) l total

theorem progressEvents_progress_map (l : List Nat) (total : Nat) :
    progressEvents (l.map fun k => ThreadEvent.progress_update k total) = l := by
  induction l with
  | nil => rfl
  | cons a l ih => simp [progressEvents, List.filterMap_cons] at ih ⊢; exact ih

theorem progressEvents_append (l1 l2 : List ThreadEvent) :
    progressEvents (l1 ++ l2) = progressEvents l1 ++ progressEvents l2 :=
  List.filterMap_append ..

theorem completedEvents_append (l1 l2 : List ThreadEvent) :
    completedEvents (l1 ++ l2) = completedEvents l1 ++ completedEvents l2 :=
  List.filterMap_append ..

theorem stopCmds_append (l1 l2 : List ThreadEvent) :
    stopCmds (l1 ++ l2) = stopCmds l1 ++ stopCmds l2 :=
  List.filterMap_append ..

/-- The phase loop that is never cancelled emits one progress sample per
tick over its whole window. -/
theorem phaseTicks_none (total : Nat) (fuel t : Nat) :
    phaseTicks none total fuel t =
      ((List.range' t fuel).map fun k => ThreadEvent.progress_update k total,
        t + fuel) := by
  induction fuel generalizing t with
  | zero => simp [phaseTicks]
  | succ n ih =>
    simp [phaseTicks, flagAt, ih (t + 1), List.range'_succ]
    omega

/-- The phase loop cancelled at tick `c` emits samples until `c` (or the
window end, whichever is first) and exits there. -/
theorem phaseTicks_some (c total : Nat) (fuel t : Nat) :
    phaseTicks (some c) total fuel t =
      ((List.range' t (min fuel (c - t))).map
          fun k => ThreadEvent.progress_update k total,
        t + min fuel (c - t)) := by
  induction fuel generalizing t with
  | zero => simp [phaseTicks]
  | succ n ih =>
    by_cases h : t < c
    · have hflag : flagAt (some c) t = true := by
        simp [flagAt]; omega
      have hmin : min (n + 1) (c - t) = min n (c - (t + 1)) + 1 := by omega
      simp [phaseTicks, hflag, ih (t + 1), hmin, List.range'_succ]
      omega
    · have hflag : flagAt (some c) t = false := by
        simp [flagAt]; omega
      have hmin : min (n + 1) (c - t) = 0 := by omega
      simp [phaseTicks, hflag, hmin]

/-- `run_dispense` is `run_fill` at the resolved duration. -/
theorem run_dispense_eq_run_fill (operation_name : String)
    (retractor_rpm dispenser_rpm : Int) (custom_duration : Option Nat)
    (dispense_duration sleep_time : Nat) (cancel : Option Nat) :
    run_dispense operation_name retractor_rpm dispenser_rpm custom_duration
        dispense_duration sleep_time cancel =
      run_fill operation_name retractor_rpm dispenser_rpm
        (resolveDispenseDuration custom_duration dispense_duration)
        sleep_time cancel := rfl

/-- Shape of an uncancelled fill run. -/
theorem run_fill_none (operation_name : String) (rr dr : Int) (D S : Nat) :
    run_fill operation_name rr dr D S none =
      [ThreadEvent.runPump .retractor rr true,
       ThreadEvent.runPump .dispenser dr false] ++
      ((List.range' 0 D).map fun k => ThreadEvent.progress_update k (D + S)) ++
      [ThreadEvent.stopPump .dispenser] ++
      ((List.range' D S).map fun k => ThreadEvent.progress_update k (D + S)) ++
      [ThreadEvent.stopPump .retractor,
       ThreadEvent.operation_completed operation_name true] := by
  rw [run_fill]
  simp [phaseLoop, phaseTicks_none, flagAt, Nat.add_sub_cancel_left]

/-- Shape of a fill run cancelled during the dispense phase
(`c ≤ duration`): the settle phase is skipped, both pumps are stopped,
and the completion event carries `false`. -/
theorem run_fill_cancel_le (operation_name : String) (rr dr : Int)
    (D S c : Nat) (h : c ≤ D) :
    run_fill operation_name rr dr D S (some c) =
      [ThreadEvent.runPump .retractor rr true,
       ThreadEvent.runPump .dispenser dr false] ++
      ((List.range' 0 c).map fun k => ThreadEvent.progress_update k (D + S)) ++
      [ThreadEvent.stopPump .dispenser, ThreadEvent.stopPump .retractor,
       ThreadEvent.operation_completed operation_name false] := by
  rw [run_fill]
  have hmin : min D c = c := by omega
  have hflag : flagAt (some c) c = false := by simp [flagAt]
  simp [phaseLoop, phaseTicks_some, hmin, hflag]

/-- Shape of a fill run cancelled after the dispense phase
(`duration < c`): the settle loop is cut short, but the run still stops
both pumps and completes with `true`. -/
theorem run_fill_cancel_gt (operation_name : String) (rr dr : Int)
    (D S c : Nat) (h : D < c) :
    run_fill operation_name rr dr D S (some c) =
      [ThreadEvent.runPump .retractor rr true,
       ThreadEvent.runPump .dispenser dr false] ++
      ((List.range' 0 D).map fun k => ThreadEvent.progress_update k (D + S)) ++
      [ThreadEvent.stopPump .dispenser] ++
      ((List.range' D (min S (c - D))).map
          fun k => ThreadEvent.progress_update k (D + S)) ++
      [ThreadEvent.stopPump .retractor,
       ThreadEvent.operation_completed operation_name true] := by
  rw [run_fill]
  have hmin : min D c = D := by omega
  have hflag : flagAt (some c) D = true := by simp [flagAt]; omega
  simp [phaseLoop, phaseTicks_some, hmin, hflag, Nat.add_sub_cancel_left]

/-- Shape of an uncancelled drain run. -/
theorem run_drain_none (operation_name : String) (rr dr : Int) (D : Nat) :
    run_drain operation_name rr dr D none =
      [ThreadEvent.runPump .retractor rr true,
       ThreadEvent.runPump .dispenser dr true] ++
      ((List.range' 0 D).map fun k => ThreadEvent.progress_update k D) ++
      [ThreadEvent.stopPump .retractor, ThreadEvent.stopPump .dispenser,
       ThreadEvent.operation_completed operation_name true] := by
  rw [run_drain]
  simp [phaseLoop, phaseTicks_none, flagAt]

/-- Shape of a drain run cancelled mid-phase. -/
theorem run_drain_cancel_le (operation_name : String) (rr dr : Int)
    (D c : Nat) (h : c ≤ D) :
    run_drain operation_name rr dr D (some c) =
      [ThreadEvent.runPump .retractor rr true,
       ThreadEvent.runPump .dispenser dr true] ++
      ((List.range' 0 c).map fun k => ThreadEvent.progress_update k D) ++
      [ThreadEvent.stopPump .retractor, ThreadEvent.stopPump .dispenser,
       ThreadEvent.operation_completed operation_name false] := by
  rw [run_drain]
  have hmin : min D c = c := by omega
  have hflag : flagAt (some c) c = false := by simp [flagAt]
  simp [phaseLoop, phaseTicks_some, hmin, hflag]

/-- Shape of a drain run whose cancellation lands after the loop window
(`D < c`): the loop runs fully and the run completes normally. -/
theorem run_drain_cancel_gt (operation_name : String) (rr dr : Int)
    (D c : Nat) (h : D < c) :
    run_drain operation_name rr dr D (some c) =
      [ThreadEvent.runPump .retractor rr true,
       ThreadEvent.runPump .dispenser dr true] ++
      ((List.range' 0 D).map fun k => ThreadEvent.progress_update k D) ++
      [ThreadEvent.stopPump .retractor, ThreadEvent.stopPump .dispenser,
       ThreadEvent.operation_completed operation_name true] := by
  rw [run_drain]
  have hmin : min D c = D := by omega
  have hflag : flagAt (some c) D = true := by simp [flagAt]; omega
  simp [phaseLoop, phaseTicks_some, hmin, hflag]

/-- Progress samples of an uncancelled fill run: one per tick. -/
theorem progressEvents_run_fill_none (operation_name : String) (rr dr : Int)
    (D S : Nat) :
    progressEvents (run_fill operation_name rr dr D S none) =
      List.range (D + S) := by
  rw [run_fill_none, List.range_eq_range']
  have hr : List.range' 0 D ++ List.range' D S = List.range' 0 (D + S) := by
    have h := List.range'_append_1 0 D S
    rw [Nat.zero_add] at h
    rw [h, Nat.add_comm]
  simp only [progressEvents_append, progressEvents_progress_map]
  simp [progressEvents, hr]

/-- Progress samples of an uncancelled dispense run. -/
theorem progressEvents_run_dispense_none (operation_name : String)
    (rr dr : Int) (cd : Option Nat) (dd S : Nat) :
    progressEvents (run_dispense operation_name rr dr cd dd S none) =
      List.range (resolveDispenseDuration cd dd + S) := by
  rw [run_dispense_eq_run_fill, progressEvents_run_fill_none]

/-- Progress samples of an uncancelled drain run. -/
theorem progressEvents_run_drain_none (operation_name : String) (rr dr : Int)
    (D : Nat) :
    progressEvents (run_drain operation_name rr dr D none) = List.range D := by
  rw [run_drain_none, List.range_eq_range']
  simp only [progressEvents_append, progressEvents_progress_map]
  simp [progressEvents]

/-- The three progress-sequence facts for a one-sample-per-tick run of
total time `T`. -/
theorem rangeProgressFacts (T : Nat) :
    (List.range T).Sorted (· ≤ ·) ∧ (∀ e ∈ List.range T, e ≤ T) ∧
    (0 < T → ∃ l, (List.range T).getLast? = some l ∧ T ≤ l + 1) := by
  refine ⟨List.sorted_le_range T, fun e he => ?_, fun hT => ?_⟩
  · exact Nat.le_of_lt (List.mem_range.mp he)
  · refine ⟨T - 1, ?_, by omega⟩
    rw [List.getLast?_range]
    have hT0 : T ≠ 0 := by omega
    simp [hT0]

/-! ## Claims -/

/-- C2: while a run is in flight (`current_operation` is `some`), a
start request for any operation name and custom duration is rejected:
the status label is set to "Another operation is already running!", no
execution thread is created (`none`), and every other component of the
GUI state — in particular the in-flight run's operation name, thread and
progress — is left untouched. -/
theorem c2_start_rejected_while_running (g : GuiState)
    (operation_name : String) (custom_duration : Option Nat) (op : String)
    (h : g.current_operation = some op) :
    PumpControlGUI.start_operation g operation_name custom_duration =
      ({ g with status_label := "Another operation is already running!" },
        none) := by
  simp [PumpControlGUI.start_operation, h]

/-- C2 witness: a concrete busy state rejects a Drain request. -/
theorem c2_witness :
    PumpControlGUI.start_operation gBusy "Drain" none =
      ({ gBusy with status_label := "Another operation is already running!" },
        none) :=
  c2_start_rejected_while_running gBusy "Drain" none "Dispense" rfl

/-- C3: on a connected driver with a nonnegative RPM ceiling, a request
`r > max_rpm` is clamped: the hardware driver succeeds and the only
value written to the target-RPM register pair is `[0, max_rpm * 100]`
(never `r * 100`); the simulated driver succeeds likewise and records
`current_rpm = max_rpm` when left running. -/
theorem c3_rpm_clamped_to_max (s : PumpControllerState)
    (sim : SimulatedPumpState) (r : Int) (duration : Option Nat)
    (reverse : Bool) (now : Nat) (hs : s.connected = true)
    (hmax : 0 ≤ s.max_rpm) (hr : s.max_rpm < r) (hsim : sim.connected = true)
    (hsimmax : 0 ≤ sim.max_rpm) (hsimr : sim.max_rpm < r) :
    (PumpController.run s r duration reverse).1 = true ∧
    targetRpmWrites (PumpController.run s r duration reverse).2 =
      [[0, s.max_rpm * 100]] ∧
    (SimulatedPumpController.run sim r duration reverse now).1 = true ∧
    (SimulatedPumpController.run sim r none reverse now).2.current_rpm =
      sim.max_rpm := by
  have h1 : ¬ s.max_rpm < 0 := by omega
  have h2 : ¬ sim.max_rpm < 0 := by omega
  refine ⟨?_, ?_, ?_, ?_⟩
  · rw [PumpController.run]
    simp only [hs, if_true, if_pos hr, if_neg h1]
    cases duration <;> rfl
  · rw [PumpController.run]
    simp only [hs, if_true, if_pos hr, if_neg h1]
    cases duration <;>
      simp [targetRpmWrites, REG_TARGET_RPM, REG_DIRECTION, REG_MAX_RPM,
        COIL_START_STOP]
  · rw [SimulatedPumpController.run]
    simp only [hsim, if_true, if_pos hsimr, if_neg h2]
    cases duration <;> rfl
  · rw [SimulatedPumpController.run]
    simp only [hsim, if_true, if_pos hsimr, if_neg h2]

/-- C3 witness: a 600-RPM-max connected pair clamps a 700 RPM request. -/
theorem c3_witness :
    (PumpController.run { hwSample with connected := true } 700 none false).1
        = true ∧
    targetRpmWrites
        (PumpController.run { hwSample with connected := true } 700 none
          false).2 =
      [[0, 60000]] ∧
    (SimulatedPumpController.run simConnected 700 none false 0).1 = true ∧
    (SimulatedPumpController.run simConnected 700 none false 0).2.current_rpm
        = 600 :=
  c3_rpm_clamped_to_max { hwSample with connected := true } simConnected 700
    none false 0 rfl (by decide) (by decide) rfl (by decide) (by decide)

/-- C4: on a connected driver, a negative RPM request fails (`False`)
and issues no device writes at all; the simulated driver's state is
returned unchanged.  (If `r` also exceeds `max_rpm`, the clamp makes the
commanded value `max_rpm < r < 0`, which the negative check still
rejects before any write.) -/
theorem c4_negative_rpm_rejected (s : PumpControllerState)
    (sim : SimulatedPumpState) (r : Int) (duration : Option Nat)
    (reverse : Bool) (now : Nat) (hs : s.connected = true)
    (hsim : sim.connected = true) (hr : r < 0) :
    PumpController.run s r duration reverse = (false, []) ∧
    SimulatedPumpController.run sim r duration reverse now = (false, sim) := by
  constructor
  · rw [PumpController.run]
    simp only [hs, if_true]
    have hlt : (if r > s.max_rpm then s.max_rpm else r) < 0 := by
      split <;> omega
    simp [hlt]
  · rw [SimulatedPumpController.run]
    simp only [hsim, if_true]
    have hlt : (if r > sim.max_rpm then sim.max_rpm else r) < 0 := by
      split <;> omega
    simp [hlt]

/-- C4 witness: a connected pair rejects −50 RPM without writes. -/
theorem c4_witness :
    PumpController.run { hwSample with connected := true } (-50) none false =
      (false, []) ∧
    SimulatedPumpController.run simConnected (-50) none false 0 =
      (false, simConnected) :=
  c4_negative_rpm_rejected { hwSample with connected := true } simConnected
    (-50) none false 0 rfl rfl (by decide)

/-- C7 counterexample: the claim asserts that the simulated variant's
`set_client` also runs the protocol initialization sequence, but on a
concrete simulated driver `set_client` issues no device writes at all,
while the hardware variant issues the three initialization writes. -/
theorem c7_counterexample :
    (SimulatedPumpController.set_client simSample).2 = [] ∧
    (PumpController.set_client hwSample).2 =
      [DeviceWrite.writeRegister REG_COMMUNICATION COMM_RS485 1,
       DeviceWrite.writeRegister REG_OPERATION_MODE
         OPERATION_MODE_CONTINUOUS 1,
       DeviceWrite.writeRegisters REG_MAX_RPM [0, 60000] 1] :=
  ⟨rfl, rfl⟩

/-- C7 (amended): the hardware `set_client` attaches the shared link,
marks the driver connected and runs the three-write initialization
sequence (communication mode, continuous mode, max-RPM ceiling) on its
own unit id; the simulated `set_client` attaches the link and marks the
driver connected but performs no initialization writes. -/
theorem c7_set_client (h : PumpControllerState) (s : SimulatedPumpState) :
    PumpController.set_client h =
      ({ h with hasClient := true, connected := true },
        [DeviceWrite.writeRegister REG_COMMUNICATION COMM_RS485 h.unit_id,
         DeviceWrite.writeRegister REG_OPERATION_MODE
           OPERATION_MODE_CONTINUOUS h.unit_id,
         DeviceWrite.writeRegisters REG_MAX_RPM [0, h.max_rpm * 100]
           h.unit_id]) ∧
    SimulatedPumpController.set_client s =
      ({ s with hasClient := true, connected := true }, []) :=
  ⟨rfl, rfl⟩

/-- C8: `stop()` is safe and idempotent on both driver variants: the
hardware `stop` never changes driver state and issues no write when not
connected (and its `try` wrapper means it never raises); the simulated
`stop` is idempotent and is the identity when not connected. -/
theorem c8_stop_idempotent (h : PumpControllerState)
    (s : SimulatedPumpState) :
    (PumpController.stop h).1 = h ∧
    (h.connected = false → (PumpController.stop h).2 = []) ∧
    SimulatedPumpController.stop (SimulatedPumpController.stop s) =
      SimulatedPumpController.stop s ∧
    (s.connected = false → SimulatedPumpController.stop s = s) := by
  refine ⟨?_, ?_, ?_, ?_⟩
  · rw [PumpController.stop]; split <;> rfl
  · intro hc
    rw [PumpController.stop]
    simp [hc]
  · by_cases hc : s.connected = true
    · simp [SimulatedPumpController.stop, hc]
    · simp [SimulatedPumpController.stop, hc]
  · intro hc
    simp [SimulatedPumpController.stop, hc]

/-- C8 witness: stopping a disconnected hardware driver issues no write,
and stopping a disconnected simulated driver changes nothing. -/
theorem c8_witness :
    (PumpController.stop hwSample).2 = [] ∧
    SimulatedPumpController.stop simSample = simSample :=
  ⟨(c8_stop_idempotent hwSample simSample).2.1 rfl,
   (c8_stop_idempotent hwSample simSample).2.2.2 rfl⟩

/-- C1 counterexample: a Fill run with a 1-tick dispense phase and a
2-tick settle phase, cancelled at tick 2 — strictly before the phase
loops finish (2 < 1 + 2), i.e. mid settle phase — emits its terminal
completion event with `success = true`, not `false` as the claim
requires for every mid-phase cancellation. -/
theorem c1_counterexample_settle_cancel :
    completedEvents (run_fill "Fill" 200 20 1 2 (some 2)) = [("Fill", true)] ∧
    2 < 1 + 2 := by
  constructor
  · rfl
  · decide

/-- C1 (amended): cancellation observed during the dispense phase
(cancel tick `c ≤ duration`) makes Fill/Dispense stop both pumps and
report `success = false`; cancellation landing in the settle phase
(`duration < c`) still stops both pumps, but the terminal event then
reports `success = true`.  Drain, which has no settle phase, reports
`success = false` for every mid-phase cancellation.  `run_dispense` is
`run_fill` at the resolved duration, and `stop_operation` itself always
commands both pumps to stop, whichever phase the cancellation lands
in. -/
theorem c1_cancelled_run (operation_name : String) (rr dr : Int)
    (D S dd : Nat) (cd : Option Nat) (c : Nat) :
    (c ≤ D →
      completedEvents (run_fill operation_name rr dr D S (some c)) =
        [(operation_name, false)]) ∧
    (D < c →
      completedEvents (run_fill operation_name rr dr D S (some c)) =
        [(operation_name, true)]) ∧
    PumpId.dispenser ∈ stopCmds (run_fill operation_name rr dr D S (some c)) ∧
    PumpId.retractor ∈ stopCmds (run_fill operation_name rr dr D S (some c)) ∧
    run_dispense operation_name rr dr cd dd S (some c) =
      run_fill operation_name rr dr (resolveDispenseDuration cd dd) S
        (some c) ∧
    (c ≤ D →
      completedEvents (run_drain operation_name rr dr D (some c)) =
        [(operation_name, false)]) ∧
    PumpId.dispenser ∈ stopCmds (run_drain operation_name rr dr D (some c)) ∧
    PumpId.retractor ∈ stopCmds (run_drain operation_name rr dr D (some c)) ∧
    stop_operation_cmds =
      [ThreadEvent.stopPump PumpId.dispenser,
       ThreadEvent.stopPump PumpId.retractor] := by
  refine ⟨?_, ?_, ?_, ?_, run_dispense_eq_run_fill .., ?_, ?_, ?_, rfl⟩
  · intro h
    rw [run_fill_cancel_le operation_name rr dr D S c h]
    simp only [completedEvents_append, completedEvents_progress_map]
    simp [completedEvents]
  · intro h
    rw [run_fill_cancel_gt operation_name rr dr D S c h]
    simp only [completedEvents_append, completedEvents_progress_map]
    simp [completedEvents]
  · by_cases h : c ≤ D
    · rw [run_fill_cancel_le operation_name rr dr D S c h]
      simp only [stopCmds_append, stopCmds_progress_map]
      simp [stopCmds]
    · rw [run_fill_cancel_gt operation_name rr dr D S c (by omega)]
      simp only [stopCmds_append, stopCmds_progress_map]
      simp [stopCmds]
  · by_cases h : c ≤ D
    · rw [run_fill_cancel_le operation_name rr dr D S c h]
      simp only [stopCmds_append, stopCmds_progress_map]
      simp [stopCmds]
    · rw [run_fill_cancel_gt operation_name rr dr D S c (by omega)]
      simp only [stopCmds_append, stopCmds_progress_map]
      simp [stopCmds]
  · intro h
    rw [run_drain_cancel_le operation_name rr dr D c h]
    simp only [completedEvents_append, completedEvents_progress_map]
    simp [completedEvents]
  · by_cases h : c ≤ D
    · rw [run_drain_cancel_le operation_name rr dr D c h]
      simp only [stopCmds_append, stopCmds_progress_map]
      simp [stopCmds]
    · rw [run_drain_cancel_gt operation_name rr dr D c (by omega)]
      simp only [stopCmds_append, stopCmds_progress_map]
      simp [stopCmds]
  · by_cases h : c ≤ D
    · rw [run_drain_cancel_le operation_name rr dr D c h]
      simp only [stopCmds_append, stopCmds_progress_map]
      simp [stopCmds]
    · rw [run_drain_cancel_gt operation_name rr dr D c (by omega)]
      simp only [stopCmds_append, stopCmds_progress_map]
      simp [stopCmds]

/-- C1 witness: a Fill run with a 5-tick dispense phase cancelled at
tick 3 reports failure and stops the dispenser. -/
theorem c1_witness :
    completedEvents (run_fill "Fill" 200 20 5 1 (some 3)) =
      [("Fill", false)] ∧
    PumpId.dispenser ∈ stopCmds (run_fill "Fill" 200 20 5 1 (some 3)) :=
  ⟨(c1_cancelled_run "Fill" 200 20 5 1 10 none 3).1 (by decide),
   (c1_cancelled_run "Fill" 200 20 5 1 10 none 3).2.2.1⟩

/-- C5: for every uncancelled run, the emitted progress sequence is
non-decreasing, every emitted elapsed value is bounded by the total
planned time `T`, and the final emitted sample is within one tick of
`T` (the loops emit strictly before `end_time`, so the last sample `l`
satisfies `T ≤ l + 1`).  Holds for Fill (`T = duration + sleep`),
Dispense (`T` = resolved duration + sleep) and Drain (`T = duration`). -/
theorem c5_progress_monotone (operation_name : String) (rr dr : Int)
    (D S dd : Nat) (cd : Option Nat) :
    (progressEvents (run_fill operation_name rr dr D S none)).Sorted
        (· ≤ ·) ∧
    (∀ e ∈ progressEvents (run_fill operation_name rr dr D S none),
      e ≤ D + S) ∧
    (0 < D + S → ∃ l,
      (progressEvents (run_fill operation_name rr dr D S none)).getLast? =
        some l ∧ D + S ≤ l + 1) ∧
    (progressEvents (run_dispense operation_name rr dr cd dd S none)).Sorted
        (· ≤ ·) ∧
    (∀ e ∈ progressEvents (run_dispense operation_name rr dr cd dd S none),
      e ≤ resolveDispenseDuration cd dd + S) ∧
    (0 < resolveDispenseDuration cd dd + S → ∃ l,
      (progressEvents
          (run_dispense operation_name rr dr cd dd S none)).getLast? =
        some l ∧ resolveDispenseDuration cd dd + S ≤ l + 1) ∧
    (progressEvents (run_drain operation_name rr dr D none)).Sorted (· ≤ ·) ∧
    (∀ e ∈ progressEvents (run_drain operation_name rr dr D none), e ≤ D) ∧
    (0 < D → ∃ l,
      (progressEvents (run_drain operation_name rr dr D none)).getLast? =
        some l ∧ D ≤ l + 1) := by
  obtain ⟨h1, h2, h3⟩ := rangeProgressFacts (D + S)
  obtain ⟨h4, h5, h6⟩ := rangeProgressFacts (resolveDispenseDuration cd dd + S)
  obtain ⟨h7, h8, h9⟩ := rangeProgressFacts D
  rw [progressEvents_run_fill_none, progressEvents_run_dispense_none,
    progressEvents_run_drain_none]
  exact ⟨h1, h2, h3, h4, h5, h6, h7, h8, h9⟩

/-- C5 witness: the concrete Fill run of 2 + 1 ticks has its last sample
within one tick of the total. -/
theorem c5_witness :
    ∃ l, (progressEvents (run_fill "Fill" 200 20 2 1 none)).getLast? =
      some l ∧ 2 + 1 ≤ l + 1 :=
  (c5_progress_monotone "Fill" 200 20 2 1 5 none).2.2.1 (by decide)

/-- C6: on a fire of the active schedule, the requested Dispense run
carries the schedule's `dispense_duration_seconds` as the custom
duration override (which `run_dispense` resolves in preference to any
configured default `dispense_duration`), and `next_dispense_time` is
recomputed to `now + interval` unconditionally — the first conjunct
holds with no assumption on whether the start request was accepted. -/
theorem c6_scheduled_fire (g : GuiState) (now dd : Nat)
    (h : g.scheduled_dispense_active = true) :
    (PumpControlGUI.execute_scheduled_dispense g now).1.next_dispense_time =
      some (now + g.dispense_interval_minutes * 60) ∧
    (g.current_operation = none →
      (PumpControlGUI.execute_scheduled_dispense g now).2 =
        some { operation_name := "Dispense"
               custom_duration := some g.dispense_duration_seconds }) ∧
    resolveDispenseDuration (some g.dispense_duration_seconds) dd =
      g.dispense_duration_seconds := by
  refine ⟨?_, ?_, rfl⟩
  · rw [PumpControlGUI.execute_scheduled_dispense]
    simp only [h, if_true]
    by_cases hc : g.current_operation.isSome
    · simp [PumpControlGUI.start_operation, hc]
    · simp [PumpControlGUI.start_operation, hc]
  · intro hn
    rw [PumpControlGUI.execute_scheduled_dispense]
    simp [h, PumpControlGUI.start_operation, hn]

/-- C6 witness: the concrete active schedule fires at time 100. -/
theorem c6_witness :
    (PumpControlGUI.execute_scheduled_dispense gScheduled
        100).1.next_dispense_time =
      some (100 + gScheduled.dispense_interval_minutes * 60) ∧
    (PumpControlGUI.execute_scheduled_dispense gScheduled 100).2 =
      some { operation_name := "Dispense"
             custom_duration := some gScheduled.dispense_duration_seconds } :=
  ⟨(c6_scheduled_fire gScheduled 100 10 rfl).1,
   (c6_scheduled_fire gScheduled 100 10 rfl).2.1 rfl⟩

/-- C9: a scheduled fire that lands while a run is in flight is skipped
entirely: no thread request is produced (so no pump command can follow
from it), nothing is queued (the state holds no queue), the in-flight
run's fields are untouched, and yet `next_dispense_time` still advances
by a full interval from the fire time. -/
theorem c9_scheduled_fire_skipped (g : GuiState) (now : Nat) (op : String)
    (ha : g.scheduled_dispense_active = true)
    (hb : g.current_operation = some op) :
    (PumpControlGUI.execute_scheduled_dispense g now).2 = none ∧
    (PumpControlGUI.execute_scheduled_dispense g now).1 =
      { g with
          status_label := "Another operation is already running!"
          next_dispense_time :=
            some (now + g.dispense_interval_minutes * 60) } := by
  constructor <;>
  · rw [PumpControlGUI.execute_scheduled_dispense]
    simp [ha, PumpControlGUI.start_operation, hb]

/-- C9 witness: the concrete busy, schedule-active state skips the fire
but advances the next-fire time. -/
theorem c9_witness :
    (PumpControlGUI.execute_scheduled_dispense gBusy 100).2 = none ∧
    (PumpControlGUI.execute_scheduled_dispense gBusy 100).1 =
      { gBusy with
          status_label := "Another operation is already running!"
          next_dispense_time :=
            some (100 + gBusy.dispense_interval_minutes * 60) } :=
  c9_scheduled_fire_skipped gBusy 100 "Dispense" rfl rfl

/-- C10: every state-changing operation of the simulated pump driver
preserves `SimInv` (disconnected implies not running at speed 0, and the
speed stays within `[0, max_rpm]` when the ceiling is nonnegative), and
a successful `run` with a nonnegative request on a driver with
nonnegative ceiling leaves `current_rpm ≤ max_rpm`.  (`get_status` is a
pure read in the source and changes no state.) -/
theorem c10_sim_invariant (s : SimulatedPumpState) (r : Int)
    (duration : Option Nat) (reverse : Bool) (now : Nat) (hinv : SimInv s) :
    SimInv (SimulatedPumpController.connect s).2 ∧
    SimInv (SimulatedPumpController.set_client s).1 ∧
    SimInv (SimulatedPumpController.run s r duration reverse now).2 ∧
    SimInv (SimulatedPumpController.stop s) ∧
    SimInv (SimulatedPumpController.disconnect s) ∧
    ((SimulatedPumpController.run s r duration reverse now).1 = true →
      0 ≤ r → 0 ≤ s.max_rpm →
      (SimulatedPumpController.run s r duration reverse now).2.current_rpm ≤
        s.max_rpm) := by
  obtain ⟨hA, hB⟩ := hinv
  refine ⟨⟨fun h => by simp [SimulatedPumpController.connect] at h,
            fun h => hB h⟩,
          ⟨fun h => by simp [SimulatedPumpController.set_client] at h,
            fun h => hB h⟩, ?_, ?_, ?_, ?_⟩
  · rw [SimulatedPumpController.run]
    by_cases hc : s.connected = true
    · simp only [hc, if_true]
      by_cases hgt : r > s.max_rpm
      · simp only [if_pos hgt]
        by_cases hneg : s.max_rpm < 0
        · simp only [if_pos hneg]
          exact ⟨hA, hB⟩
        · simp only [if_neg hneg]
          cases duration with
          | some d =>
            exact ⟨fun h => by simp [hc] at h,
              fun hm => by simp at hm ⊢; omega⟩
          | none =>
            exact ⟨fun h => by simp [hc] at h,
              fun hm => by simp at hm ⊢; omega⟩
      · simp only [if_neg hgt]
        by_cases hneg : r < 0
        · simp only [if_pos hneg]
          exact ⟨hA, hB⟩
        · simp only [if_neg hneg]
          cases duration with
          | some d =>
            exact ⟨fun h => by simp [hc] at h,
              fun hm => by simp at hm ⊢; omega⟩
          | none =>
            exact ⟨fun h => by simp [hc] at h,
              fun hm => by simp at hm ⊢; omega⟩
    · simp only [if_neg hc]
      exact ⟨hA, hB⟩
  · by_cases hc : s.connected = true
    · rw [SimulatedPumpController.stop, if_pos hc]
      exact ⟨fun h => by simp [hc] at h,
        fun hm => by simp at hm ⊢; omega⟩
    · rw [SimulatedPumpController.stop, if_neg hc]
      exact ⟨hA, hB⟩
  · exact ⟨fun _ => ⟨rfl, rfl⟩, fun hm => ⟨le_refl 0, hm⟩⟩
  · intro _ _ hm
    rw [SimulatedPumpController.run]
    by_cases hc : s.connected = true
    · simp only [hc, if_true]
      by_cases hgt : r > s.max_rpm
      · simp only [if_pos hgt]
        by_cases hneg : s.max_rpm < 0
        · simp only [if_pos hneg]
          exact (hB hm).2
        · simp only [if_neg hneg]
          cases duration <;> simp <;> omega
      · simp only [if_neg hgt]
        by_cases hneg : r < 0
        · simp only [if_pos hneg]
          exact (hB hm).2
        · simp only [if_neg hneg]
          cases duration <;> simp <;> omega
    · simp only [if_neg hc]
      exact (hB hm).2

/-- C10 witness: the invariant holds after stopping and after a clamped
run on a concrete connected driver. -/
theorem c10_witness :
    SimInv (SimulatedPumpController.stop simConnected) ∧
    (SimulatedPumpController.run simConnected 700 none false 0).2.current_rpm
      ≤ simConnected.max_rpm := by
  have hinv : SimInv simConnected := by
    unfold SimInv
    refine ⟨fun h => ?_, fun _ => ⟨?_, ?_⟩⟩
    · simp [simConnected, simSample, SimulatedPumpController.init] at h
    · decide
    · decide
  exact ⟨(c10_sim_invariant simConnected 700 none false 0 hinv).2.2.2.1,
    (c10_sim_invariant simConnected 700 none false 0 hinv).2.2.2.2.2 rfl
      (by decide) (by decide)⟩

end WaterDispenser
